import Mathlib

/-!
Verification of the playback-synchronization / paint-overlay program
(`src/main.py`, a pygame frame player with a drawing overlay).

The Python source is shallowly embedded: pure fragments become Lean
functions, the mutable playback variables become an explicit state record,
and external pygame services (image decode, scaling, encoding, the audio
transport, wall clock) become explicit parameters, mirroring the spec's
list of external collaborator capabilities.  Machine time values are
modelled as rationals; Python `int()` truncation and `%` (non-negative
remainder for a positive modulus) are modelled explicitly.
-/

set_option autoImplicit false

namespace BadApple

/-- Python `int(q)` on a rational: truncation toward zero. -/
def pytrunc (q : ℚ) : ℤ :=
  if 0 ≤ q then ⌊q⌋ else ⌈q⌉

/-- Python `a % n`: for a positive modulus the result is non-negative,
which is `Int.emod`. -/
def pymod (a n : ℤ) : ℤ := a % n

/-! ### Frame-index arithmetic (main.py lines 309–316)

`frame_index = (frame_index + 1) % max(1, len(frame_files))` and the
symmetric `- 1` variant. -/

/-- Step to the next frame index, from the `K_RIGHT` handler:
`(i + 1) % max(1, len(frame_files))`. -/
def seek_next (nfiles : ℕ) (i : ℤ) : ℤ :=
  pymod (i + 1) (max 1 (nfiles : ℤ))

/-- Step to the previous frame index, from the `K_LEFT` handler:
`(i - 1) % max(1, len(frame_files))`. -/
def seek_prev (nfiles : ℕ) (i : ℤ) : ℤ :=
  pymod (i - 1) (max 1 (nfiles : ℤ))

/-- The `K_RIGHT` / `']'` key handler (main.py lines 309–312): the seek is
applied only when not playing, and a re-materialization
(`current_frame_surface`) is requested exactly when the seek is applied.
Returns the new `frame_index` and whether a decode was requested. -/
def handle_seek_right (playing : Bool) (nfiles : ℕ) (i : ℤ) : ℤ × Bool :=
  if !playing then (seek_next nfiles i, true) else (i, false)

/-- The `K_LEFT` / `'['` key handler (main.py lines 313–316). -/
def handle_seek_left (playing : Bool) (nfiles : ℕ) (i : ℤ) : ℤ × Bool :=
  if !playing then (seek_prev nfiles i, true) else (i, false)

/-! ### Audio-master per-tick index evaluation (main.py lines 364–380)

```
desired = int(elapsed * fps)
if desired != frame_index:
    frame_index = desired % len(frame_files)
    cur_frame = current_frame_surface(frame_index)
```
guarded by `if frame_files:`. -/

/-- One audio-master tick. `elapsed` is in seconds, `fps` the clamped
target rate, `nfiles = len(frame_files)`.  Returns the new `frame_index`
and whether a re-materialization (decode) was requested. -/
def audio_tick (elapsed : ℚ) (fps : ℕ) (nfiles : ℕ) (frame_index : ℤ) :
    ℤ × Bool :=
  if nfiles ≠ 0 then
    if pytrunc (elapsed * (fps : ℚ)) ≠ frame_index then
      (pymod (pytrunc (elapsed * (fps : ℚ))) (nfiles : ℤ), true)
    else (frame_index, false)
  else (frame_index, false)

/-! ### Wall-clock stepping (main.py lines 381–390)

```
if playing and frame_files:
    now = time.time()
    if now - last_time >= 1.0 / fps:
        frame_index += 1
        if frame_index >= len(frame_files):
            frame_index = 0
        cur_frame = current_frame_surface(frame_index)
        last_time = now
```
-/

/-- One wall-clock tick with no audio master.  Returns the new
`frame_index`, the new `last_time`, and whether a decode was requested. -/
def wall_tick (playing : Bool) (nfiles : ℕ) (now last_time : ℚ) (fps : ℕ)
    (frame_index : ℤ) : ℤ × ℚ × Bool :=
  if playing ∧ nfiles ≠ 0 then
    if 1 / (fps : ℚ) ≤ now - last_time then
      (if (nfiles : ℤ) ≤ frame_index + 1 then 0 else frame_index + 1, now, true)
    else (frame_index, last_time, false)
  else (frame_index, last_time, false)

/-! ### Playback state (main.py lines 188–213, 260–269, 285–307)

The mutable playback variables of `main`: `playing`, `frame_index`,
`audio_started`, `audio_start_time`, `audio_paused_at`, `audio_pause_acc`
and `last_time`.  `audio_paused_at` and `audio_pause_acc` are declared in
the source (lines 189–190) and carried here verbatim. -/

structure PlayState where
  playing : Bool
  frame_index : ℤ
  audio_started : Bool
  audio_start_time : Option ℚ
  audio_paused_at : Option ℚ
  audio_pause_acc : ℚ
  last_time : ℚ
  deriving DecidableEq

/-- The variable initialisation at main.py lines 188–213: paused, index 0,
no audio started, zero pause bookkeeping. -/
def init_state (t0 : ℚ) : PlayState :=
  { playing := false
    frame_index := 0
    audio_started := false
    audio_start_time := none
    audio_paused_at := none
    audio_pause_acc := 0
    last_time := t0 }

/-- Audio setup (main.py lines 186–199): `audio_enabled` is true when
audio is not disabled and the file exists; a failed `mixer.init`/`load`
resets it to false. -/
def audio_setup (no_audio isfile load_ok : Bool) : Bool :=
  ((!no_audio) && isfile) && load_ok

/-- The launch auto-start (main.py lines 260–269): if audio is enabled,
try to start it; on success, mark audio started, record its start time and
begin playing.  `play_ok = false` models `pygame.mixer.music.play`
raising, in which case none of the assignments after it run. -/
def launch (audio_enabled play_ok : Bool) (now : ℚ) (st : PlayState) :
    PlayState :=
  if audio_enabled then
    if play_ok then
      { st with audio_started := true, audio_start_time := some now,
                playing := true, last_time := now }
    else st
  else st

/-- The `K_SPACE` handler (main.py lines 285–307), with audio commands
succeeding: toggle `playing`; when now playing, start the audio if it has
never been started (recording `audio_start_time`) or unpause it, and set
`last_time = now`; when now paused, pause the audio.  Nothing on either
branch touches `audio_pause_acc`, `audio_paused_at` or `frame_index`. -/
def toggle_play (audio_enabled : Bool) (now : ℚ) (st : PlayState) :
    PlayState :=
  let playing := !st.playing
  if playing then
    let st1 :=
      if audio_enabled && !st.audio_started then
        { st with audio_started := true, audio_start_time := some now }
      else st
    { st1 with playing := true, last_time := now }
  else
    { st with playing := false }

/-- The wall-clock fallback elapsed time used when the mixer reports no
valid position (main.py lines 370–375):
`time.time() - audio_start_time - audio_pause_acc`, or
`time.time() - start_time` if the audio was never started. -/
def fallback_elapsed (st : PlayState) (now start_time : ℚ) : ℚ :=
  match st.audio_start_time with
  | some t => now - t - st.audio_pause_acc
  | none => now - start_time

/-! ### Pixels and surfaces -/

/-- One RGBA pixel; channels are 0–255 integers. -/
structure RGBA where
  r : ℕ
  g : ℕ
  b : ℕ
  a : ℕ
  deriving DecidableEq

/-- The `BLEND_RGBA_MIN` blit rule of pygame: per-channel minimum of
destination and source, on all four channels. -/
def rgba_min (d s : RGBA) : RGBA :=
  ⟨min d.r s.r, min d.g s.g, min d.b s.b, min d.a s.a⟩

/-- A pygame surface: fixed dimensions and a pixel map (the map is total;
only coordinates in `[0,width) × [0,height)` are meaningful). -/
structure Surface where
  width : ℕ
  height : ℕ
  pix : ℤ → ℤ → RGBA

/-- `pygame.Surface((w, h))` without `SRCALPHA`: opaque black. -/
def mk_surface (w h : ℕ) : Surface :=
  ⟨w, h, fun _ _ => ⟨0, 0, 0, 255⟩⟩

/-- `surf.fill(c)`. -/
def fill_surface (s : Surface) (c : RGBA) : Surface :=
  ⟨s.width, s.height, fun _ _ => c⟩

/-! ### The erase stamp and erase stroke (main.py lines 396–402)

```
if erase_surf is None or erase_surf.get_width() != brush_radius * 2:
    erase_surf = pygame.Surface((brush_radius*2, brush_radius*2), pygame.SRCALPHA)
    erase_surf.fill((0, 0, 0, 0))
    pygame.draw.circle(erase_surf, (0, 0, 0, 0), (brush_radius, brush_radius), brush_radius)
overlay.blit(erase_surf, (mx - brush_radius, my - brush_radius),
             special_flags=pygame.BLEND_RGBA_MIN)
```
-/

/-- The erase stamp: a `2r × 2r` surface filled with `(0,0,0,0)` on which
a disc of colour `(0,0,0,0)` of radius `r` is drawn centred at `(r, r)`.
`(u, v)` are stamp-local coordinates. -/
def erase_stamp (radius : ℕ) (u v : ℤ) : RGBA :=
  let fill_color : RGBA := ⟨0, 0, 0, 0⟩
  let circle_color : RGBA := ⟨0, 0, 0, 0⟩
  if (u - radius) * (u - radius) + (v - radius) * (v - radius) ≤
      (radius : ℤ) * radius then circle_color
  else fill_color

/-- The erase stroke: blit the erase stamp onto the overlay at
`(mx - radius, my - radius)` with `BLEND_RGBA_MIN`, clipped to the
overlay's `w × h` bounds.  Pixels outside the stamp's square are
untouched. -/
def stroke_erase (overlay : ℤ → ℤ → RGBA) (w h : ℕ) (mx my : ℤ)
    (radius : ℕ) : ℤ → ℤ → RGBA :=
  fun x y =>
    let u := x - (mx - radius)
    let v := y - (my - radius)
    if 0 ≤ x ∧ x < (w : ℤ) ∧ 0 ≤ y ∧ y < (h : ℤ) ∧
       0 ≤ u ∧ u < 2 * radius ∧ 0 ≤ v ∧ v < 2 * radius then
      rgba_min (overlay x y) (erase_stamp radius u v)
    else overlay x y

/-! ### Frame materialization (main.py lines 50–58, 223–247)

The image decode and scaling services are external collaborators and are
passed in as functions; `convert`/`convert_alpha` only change the pixel
format, not the abstract pixel content, and are the identity here. -/

/-- `load_frame_surface` (main.py lines 50–58): try to decode; on any
exception log and return `None`.  `decode` is the external
`pygame.image.load` service. -/
def load_frame_surface (decode : String → Option Surface) (path : String) :
    Option Surface :=
  decode path

/-- `current_frame_surface(idx)` (main.py lines 223–244): with frames
present, decode `frame_files[idx]`; on decode failure return the blank
`pygame.Surface((w, h))` placeholder; scale to canvas size if the decoded
size differs.  With no frames, return a `(30,30,30)`-filled canvas. -/
def current_frame_surface (decode : String → Option Surface)
    (scale : Surface → ℕ → ℕ → Surface) (frame_files : List String)
    (w h : ℕ) (idx : ℕ) : Surface :=
  if frame_files ≠ [] then
    match load_frame_surface decode (frame_files.getD idx "") with
    | none => mk_surface w h
    | some surf =>
      if ¬(surf.width = w ∧ surf.height = h) then scale surf w h else surf
  else
    fill_surface (mk_surface w h) ⟨30, 30, 30, 255⟩

/-! ### Save (main.py lines 61–72, 319–324) -/

/-- `save_combined` (main.py lines 61–72): flatten frame and overlay into
a fresh surface by two blits and try to encode it; report success.
`blit` is pygame's alpha blit and `encode` is `pygame.image.save`, both
external services; `encode` returns `false` exactly when the write
raises. -/
def save_combined (blit : Surface → Surface → Surface)
    (encode : Surface → String → Bool) (frame_surf overlay_surf : Surface)
    (path : String) : Bool :=
  let w := frame_surf.width
  let h := frame_surf.height
  let out : Surface := ⟨w, h, fun _ _ => ⟨0, 0, 0, 0⟩⟩
  let out := blit out frame_surf
  let out := blit out overlay_surf
  encode out path

/-- The `K_s` handler (main.py lines 319–324): call `save_combined` on the
current frame and overlay; the playback state and the overlay are not
written to at all.  Returns them together with the success flag. -/
def handle_save (blit : Surface → Surface → Surface)
    (encode : Surface → String → Bool) (st : PlayState) (overlay : Surface)
    (cur_frame : Surface) (path : String) : PlayState × Surface × Bool :=
  (st, overlay, save_combined blit encode cur_frame overlay path)

end BadApple

namespace BadApple

/-- A sanity check of the embedding of Python `%`:
`(-1) % 5 = 4` in Python, and `Int.emod` agrees. -/
theorem pymod_neg_one_five : pymod (-1) 5 = 4 := by decide

/-- C1: while playing under the audio master, the per-tick target frame
index is the absolute mapping `floor(elapsed * target_rate) mod
frame_count()`; in particular positions `[0, 500, 1000, 1500]` ms at rate
30 with 46 frames produce indices `[0, 15, 30, 45]`, each tick starting
from the index the previous one produced. -/
theorem audio_master_absolute_mapping (elapsed : ℚ) (fps n : ℕ) (i : ℤ)
    (hn : n ≠ 0) (he : 0 ≤ elapsed) (h0 : 0 ≤ i) (hi : i < (n : ℤ)) :
    (audio_tick elapsed fps n i).1 = ⌊elapsed * (fps : ℚ)⌋ % (n : ℤ) ∧
    (audio_tick 0 30 46 0).1 = 0 ∧
    (audio_tick (1/2) 30 46 0).1 = 15 ∧
    (audio_tick 1 30 46 15).1 = 30 ∧
    (audio_tick (3/2) 30 46 30).1 = 45 := by
  refine ⟨?_, ?_, ?_, ?_, ?_⟩
  · have hq : 0 ≤ elapsed * (fps : ℚ) := mul_nonneg he (Nat.cast_nonneg fps)
    have htr : pytrunc (elapsed * (fps : ℚ)) = ⌊elapsed * (fps : ℚ)⌋ :=
      if_pos hq
    unfold audio_tick
    rw [if_pos hn, htr]
    by_cases hd : ⌊elapsed * (fps : ℚ)⌋ = i
    · rw [if_neg (not_not_intro hd)]
      simpa [pymod, hd] using (Int.emod_eq_of_lt h0 hi).symm
    · rw [if_pos hd]
      rfl
  · norm_num [audio_tick, pytrunc, pymod]
  · norm_num [audio_tick, pytrunc, pymod]
  · norm_num [audio_tick, pytrunc, pymod]
  · norm_num [audio_tick, pytrunc, pymod]

/-- Witness for C1: the audio-master mapping applied at elapsed 0.5 s,
rate 30, 46 frames, starting index 0. -/
theorem audio_master_absolute_mapping_witness :
    (audio_tick (1/2) 30 46 0).1 = ⌊(1/2 : ℚ) * (30 : ℕ)⌋ % (46 : ℤ) :=
  (audio_master_absolute_mapping (1/2) 30 46 0 (by norm_num) (by norm_num)
    (by norm_num) (by norm_num)).1

/-- C4 counterexample: with 10 frames, cached index 5 and elapsed 0.5 s at
rate 30, the unreduced computed value is 15, whose reduction mod 10 equals
the cached index 5 — yet the tick requests a decode (`true`), refuting
"if the computed/resulting index equals the cached index, no decode
occurs". -/
theorem audio_tick_redundant_decode :
    audio_tick (1/2) 30 10 5 = (5, true) := by
  norm_num [audio_tick, pytrunc, pymod]

/-- C4 (amended): a decode is requested on an audio-master tick exactly
when the unreduced value `int(elapsed * fps)` differs from the current
`frame_index` (so recomputing the same unreduced value is a cache hit),
and an accepted seek always requests a re-materialization. -/
theorem decode_request_characterization (elapsed : ℚ) (fps n : ℕ) (i : ℤ)
    (hn : n ≠ 0) :
    ((audio_tick elapsed fps n i).2 = true ↔ pytrunc (elapsed * (fps : ℚ)) ≠ i) ∧
    (pytrunc (elapsed * (fps : ℚ)) = i → audio_tick elapsed fps n i = (i, false)) ∧
    (handle_seek_right false n i).2 = true ∧
    (handle_seek_left false n i).2 = true := by
  refine ⟨?_, ?_, rfl, rfl⟩
  · unfold audio_tick
    rw [if_pos hn]
    by_cases hd : pytrunc (elapsed * (fps : ℚ)) = i
    · rw [if_neg (not_not_intro hd)]
      simp [hd]
    · rw [if_pos hd]
      simp [hd]
  · intro hd
    unfold audio_tick
    rw [if_pos hn, if_neg (not_not_intro hd)]

/-- Witness for C4 (amended): at elapsed 0.5 s, rate 30, 10 frames,
index 15 the unreduced value equals the index, and no decode occurs. -/
theorem decode_request_characterization_witness :
    audio_tick (1/2) 30 10 15 = (15, false) :=
  (decode_request_characterization (1/2) 30 10 15 (by norm_num)).2.1
    (by norm_num [pytrunc])

/-- C5: seek stepping wraps modulo `frame_count()`: `next(i) = (i+1) mod
n`, `prev(i) = (i-1) mod n`, they are mutually inverse on `[0, n)`, and
with `n = 0` both operations clamp the index to 0. -/
theorem seek_wraparound (n : ℕ) (i : ℤ) (hn : 0 < n) (h0 : 0 ≤ i)
    (hi : i < (n : ℤ)) :
    seek_next n i = (i + 1) % (n : ℤ) ∧
    seek_prev n i = (i - 1) % (n : ℤ) ∧
    seek_next n (seek_prev n i) = i ∧
    seek_prev n (seek_next n i) = i ∧
    (∀ j : ℤ, seek_next 0 j = 0 ∧ seek_prev 0 j = 0) := by
  have hmax : max (1 : ℤ) (n : ℤ) = (n : ℤ) :=
    max_eq_right (by exact_mod_cast hn)
  have hnexta : ∀ a : ℤ, seek_next n a = (a + 1) % (n : ℤ) := by
    intro a
    unfold seek_next pymod
    rw [hmax]
  have hpreva : ∀ a : ℤ, seek_prev n a = (a - 1) % (n : ℤ) := by
    intro a
    unfold seek_prev pymod
    rw [hmax]
  refine ⟨hnexta i, hpreva i, ?_, ?_, ?_⟩
  · rw [hpreva, hnexta, Int.emod_add_emod]
    simpa using Int.emod_eq_of_lt h0 hi
  · rw [hnexta, hpreva, sub_eq_add_neg, Int.emod_add_emod]
    simpa using Int.emod_eq_of_lt h0 hi
  · intro j
    constructor <;> simp [seek_next, seek_prev, pymod]

/-- Witness for C5: the inverse laws at `n = 3`, `i = 2`. -/
theorem seek_wraparound_witness :
    seek_next 3 (seek_prev 3 2) = 2 ∧ seek_prev 3 (seek_next 3 2) = 2 :=
  ⟨(seek_wraparound 3 2 (by norm_num) (by norm_num) (by norm_num)).2.2.1,
   (seek_wraparound 3 2 (by norm_num) (by norm_num) (by norm_num)).2.2.2.1⟩

/-- C6: the seek handlers change `frame_index` — by exactly one wrapped
step, with a re-materialization request — only while paused; while
playing they leave the index unchanged and request no decode. -/
theorem seek_only_while_paused (n : ℕ) (i : ℤ) (hn : 0 < n) :
    handle_seek_right true n i = (i, false) ∧
    handle_seek_left true n i = (i, false) ∧
    handle_seek_right false n i = ((i + 1) % (n : ℤ), true) ∧
    handle_seek_left false n i = ((i - 1) % (n : ℤ), true) := by
  have hmax : max (1 : ℤ) (n : ℤ) = (n : ℤ) :=
    max_eq_right (by exact_mod_cast hn)
  refine ⟨rfl, rfl, ?_, ?_⟩ <;>
    simp [handle_seek_right, handle_seek_left, seek_next, seek_prev, pymod,
      hmax]

/-- Witness for C6: seeks at `n = 4`, `i = 1`, in both states. -/
theorem seek_only_while_paused_witness :
    handle_seek_right true 4 1 = (1, false) ∧
    handle_seek_right false 4 1 = ((1 + 1) % (4 : ℤ), true) :=
  ⟨(seek_only_while_paused 4 1 (by norm_num)).1,
   (seek_only_while_paused 4 1 (by norm_num)).2.2.1⟩

/-- C7: while playing with no audio master, the index advances by exactly
one wrapped step when at least one full `1 / target_rate` interval has
elapsed since the last advance (and `last_time` is reset to `now`),
advances not at all otherwise, wraps from `frame_count() - 1` to 0, and
does not move at all when not playing. -/
theorem wall_clock_single_step (fps n : ℕ) (now last_time : ℚ) (i : ℤ)
    (hn : 0 < n) (h0 : 0 ≤ i) (hi : i < (n : ℤ)) :
    (1 / (fps : ℚ) ≤ now - last_time →
      wall_tick true n now last_time fps i = ((i + 1) % (n : ℤ), now, true)) ∧
    (now - last_time < 1 / (fps : ℚ) →
      wall_tick true n now last_time fps i = (i, last_time, false)) ∧
    (1 / (fps : ℚ) ≤ now - last_time →
      wall_tick true n now last_time fps ((n : ℤ) - 1) = (0, now, true)) ∧
    wall_tick false n now last_time fps i = (i, last_time, false) := by
  refine ⟨?_, ?_, ?_, ?_⟩
  · intro h
    unfold wall_tick
    rw [if_pos ⟨rfl, hn.ne'⟩, if_pos h]
    by_cases hw : (n : ℤ) ≤ i + 1
    · have h1 : i + 1 = (n : ℤ) := by omega
      simp [hw, h1]
    · have h1 : (i + 1) % (n : ℤ) = i + 1 :=
        Int.emod_eq_of_lt (by omega) (by omega)
      simp [hw, h1]
  · intro h
    unfold wall_tick
    rw [if_pos ⟨rfl, hn.ne'⟩, if_neg (not_le.mpr h)]
  · intro h
    unfold wall_tick
    rw [if_pos ⟨rfl, hn.ne'⟩, if_pos h]
    simp
  · unfold wall_tick
    rw [if_neg (by simp)]

/-- Witness for C7: one wall-clock step at rate 10 with 3 frames, a full
interval elapsed, from index 1, and the wrap from index 2. -/
theorem wall_clock_single_step_witness :
    wall_tick true 3 1 0 10 1 = ((1 + 1) % (3 : ℤ), 1, true) ∧
    wall_tick true 3 1 0 10 ((3 : ℤ) - 1) = (0, 1, true) :=
  ⟨(wall_clock_single_step 10 3 1 0 1 (by norm_num) (by norm_num)
      (by norm_num)).1 (by norm_num),
   (wall_clock_single_step 10 3 1 0 1 (by norm_num) (by norm_num)
      (by norm_num)).2.2.1 (by norm_num)⟩

/-- C2 at its failing input: an erase stroke at `(10, 10)` with radius 3
zeroes the opaque-white overlay pixel `(7, 7)` — a corner of the stamp's
bounding square that lies strictly outside the disc
(`(7-10)² + (7-10)² = 18 > 9`) — because the stamp is filled with
`(0,0,0,0)` everywhere before the (equally transparent) disc is drawn, so
the `BLEND_RGBA_MIN` blit clears the whole square.  A pixel outside the
square, `(7, 20)`, is untouched. -/
theorem erase_clears_whole_bounding_square :
    stroke_erase (fun _ _ => ⟨255, 255, 255, 255⟩) 100 100 10 10 3 7 7 =
      ⟨0, 0, 0, 0⟩ ∧
    ((7 : ℤ) - 10) * ((7 : ℤ) - 10) + ((7 : ℤ) - 10) * ((7 : ℤ) - 10) >
      (3 : ℤ) * 3 ∧
    stroke_erase (fun _ _ => ⟨255, 255, 255, 255⟩) 100 100 10 10 3 7 20 =
      ⟨255, 255, 255, 255⟩ := by
  refine ⟨by decide, by decide, by decide⟩

/-- C3 at its failing input: the session starts playing with audio at
`t = 0`, is paused at `t = 1` and resumed at `t = 3`.  The pause
transition adds nothing to `audio_pause_acc` (it stays 0, and
`audio_paused_at` is never written), so when the mixer reports no valid
position at `t = 4` the wall-clock fallback elapsed time is 4 s — it
includes the 2 s paused gap instead of the continuous 2 s of active
playback.  The transitions themselves do leave `frame_index` unchanged. -/
theorem pause_bookkeeping_never_updated :
    (launch true true 0 (init_state 0)).playing = true ∧
    (toggle_play true 1 (launch true true 0 (init_state 0))).playing
      = false ∧
    (toggle_play true 3
        (toggle_play true 1 (launch true true 0 (init_state 0)))).playing
      = true ∧
    (toggle_play true 1 (launch true true 0 (init_state 0))).audio_pause_acc
      = 0 ∧
    (toggle_play true 3
        (toggle_play true 1
          (launch true true 0 (init_state 0)))).audio_pause_acc = 0 ∧
    (toggle_play true 3
        (toggle_play true 1
          (launch true true 0 (init_state 0)))).audio_paused_at = none ∧
    (toggle_play true 1 (launch true true 0 (init_state 0))).frame_index
      = (launch true true 0 (init_state 0)).frame_index ∧
    (toggle_play true 3
        (toggle_play true 1 (launch true true 0 (init_state 0)))).frame_index
      = (toggle_play true 1 (launch true true 0 (init_state 0))).frame_index ∧
    fallback_elapsed
      (toggle_play true 3
        (toggle_play true 1 (launch true true 0 (init_state 0)))) 4 0 = 4 ∧
    fallback_elapsed
      (toggle_play true 3
        (toggle_play true 1 (launch true true 0 (init_state 0)))) 4 0 ≠ 2 := by
  norm_num [launch, init_state, toggle_play, fallback_elapsed]

/-- C8: when the decode service fails on the requested frame's path,
`current_frame_surface` returns the constant blank placeholder of canvas
size instead of raising; and because materialization keeps no failure
memory, a later request for the same index with a now-succeeding decode
returns the decoded frame (no blacklist). -/
theorem decode_failure_placeholder_and_retry
    (decode1 decode2 : String → Option Surface)
    (scale : Surface → ℕ → ℕ → Surface) (frame_files : List String)
    (w h : ℕ) (idx : ℕ) (surf : Surface)
    (hne : frame_files ≠ [])
    (hfail : decode1 (frame_files.getD idx "") = none)
    (hok : decode2 (frame_files.getD idx "") = some surf)
    (hw : surf.width = w) (hh : surf.height = h) :
    current_frame_surface decode1 scale frame_files w h idx =
      mk_surface w h ∧
    current_frame_surface decode2 scale frame_files w h idx = surf := by
  constructor
  · unfold current_frame_surface load_frame_surface
    rw [if_pos hne, hfail]
  · unfold current_frame_surface load_frame_surface
    rw [if_pos hne, hok]
    simp [hw, hh]

/-- Witness for C8: a one-frame list whose decode first fails, then
succeeds with a surface that is already canvas-sized. -/
theorem decode_failure_placeholder_and_retry_witness :
    current_frame_surface (fun _ => none) (fun s _ _ => s) ["f0"] 8 6 0 =
      mk_surface 8 6 ∧
    current_frame_surface (fun _ => some (mk_surface 8 6)) (fun s _ _ => s)
      ["f0"] 8 6 0 = mk_surface 8 6 :=
  decode_failure_placeholder_and_retry (fun _ => none)
    (fun _ => some (mk_surface 8 6)) (fun s _ _ => s) ["f0"] 8 6 0
    (mk_surface 8 6) (by simp) rfl rfl rfl rfl

/-- C9: when the encode step of a save fails, the save handler reports
`false`, and the playback state and overlay it hands back are exactly the
ones it was given — the save path writes to neither. -/
theorem save_failure_leaves_state (blit : Surface → Surface → Surface)
    (encode : Surface → String → Bool) (st : PlayState)
    (overlay cur_frame : Surface) (path : String)
    (hfail : save_combined blit encode cur_frame overlay path = false) :
    handle_save blit encode st overlay cur_frame path =
      (st, overlay, false) := by
  simp [handle_save, hfail]

/-- Witness for C9: a save whose encode always fails, from the initial
state. -/
theorem save_failure_leaves_state_witness :
    handle_save (fun d _ => d) (fun _ _ => false) (init_state 0)
      (mk_surface 2 2) (mk_surface 2 2) "out.png" =
      (init_state 0, mk_surface 2 2, false) :=
  save_failure_leaves_state (fun d _ => d) (fun _ _ => false) (init_state 0)
    (mk_surface 2 2) (mk_surface 2 2) "out.png" rfl

/-- C10: the session begins playing, with the audio already started, iff
audio is not disabled, the audio file exists, it loads, and the automatic
start succeeds; in every other case it begins paused, at frame index 0
either way. -/
theorem initial_state_playing_iff (no_audio isfile load_ok play_ok : Bool)
    (t0 : ℚ) :
    (launch (audio_setup no_audio isfile load_ok) play_ok t0
        (init_state t0)).playing =
      ((((!no_audio) && isfile) && load_ok) && play_ok) ∧
    (launch (audio_setup no_audio isfile load_ok) play_ok t0
        (init_state t0)).audio_started =
      (launch (audio_setup no_audio isfile load_ok) play_ok t0
        (init_state t0)).playing ∧
    (launch (audio_setup no_audio isfile load_ok) play_ok t0
        (init_state t0)).frame_index = 0 := by
  cases no_audio <;> cases isfile <;> cases load_ok <;> cases play_ok <;>
    simp [launch, audio_setup, init_state]

end BadApple
